import Mathlib

/-!
Verification development for the attention layers implemented in
`keras/layers/attention.py` (classes `MultiHeadAttention`, `SoftAttention`,
`ConvAtt`, and the configuration/error-raising surface of the remaining
layers of the module).

Tensors are embedded as total functions from natural-number indices to an
ordered field; entries outside a stage's declared shape are irrelevant.
The deterministic forward path is modelled: the constructor-default
dropout rate 0 (so the `Dropout` sublayer is never created, source line
162) and the `mask=None` input path of `call` (source lines 171-177 are
no-ops in that case).  Backend primitives (`K.sign`, `K.tril`, `K.sqrt`,
`K.exp`, `K.softmax`) live in this repository's backend package, which is
outside the sources under verification, and are therefore modelled from
the spec where indicated.
-/

namespace AttentionSpec

/-- Rank-3 tensor: indices are (batch or stacked-batch row, timestep,
feature); entries outside the declared shape bounds are irrelevant. -/
abbrev T3 (α : Type) : Type := ℕ → ℕ → ℕ → α

variable {α : Type} [LinearOrderedField α]

/-- Modelled from the spec: the backend elementwise sign `K.sign`
(1 on positives, -1 on negatives, 0 at 0), used by the key/query
padding masks of `MultiHeadAttention.call` (source lines 200, 220). -/
def Ksign (x : α) : α := if 0 < x then 1 else if x < 0 then -1 else 0

/-- Modelled from the spec: `K.tril` applied to a tensor of ones keeps the
lower triangle including the diagonal (source line 208), i.e. entry (i, j)
is 1 when j is not in the future of i and 0 otherwise. -/
def trilOnes (i j : ℕ) : α := if j ≤ i then 1 else 0

/-- The padding constant `-2 ** 32 + 1` written at source lines 203 and 210
to suppress masked attention scores. -/
def paddingValue : α := -(2 ^ 32) + 1

/-- Modelled from the spec: the backend softmax over the last axis
(`K.softmax_3d`, source line 214): each score is exponentiated and
normalised by the row sum; the backend exponential is a parameter. -/
def softmax3d (exp : α → α) (lastDim : ℕ) (s : T3 α) : T3 α :=
  fun n i j => exp (s n i j) / ∑ u in Finset.range lastDim, exp (s n i u)

/-- The projection of source line 180:
`activation(K.bias_add(K.dot(x, kernel), bias))` when `use_bias` and
`activation(K.dot(x, kernel))` otherwise. -/
def denseProj (act : α → α) (useBias : Bool) (kernel : ℕ → ℕ → α)
    (bias : ℕ → α) (inDim : ℕ) (x : T3 α) : T3 α :=
  fun n t d =>
    if useBias then act ((∑ j in Finset.range inDim, x n t j * kernel j d) + bias d)
    else act (∑ j in Finset.range inDim, x n t j * kernel j d)

/-- Axis-0 concatenation of the `n_heads` feature slices of width `dk`
(source lines 185-187): row `n` of the stacked tensor is batch row `n % B`
of head `n / B`. -/
def headConcat0 (B dk : ℕ) (x : T3 α) : T3 α :=
  fun n t d => x (n % B) t ((n / B) * dk + d)

/-- Slice of head `hIdx`: feature `d` of the slice is feature
`hIdx * dk + d` of the projected tensor (the slices
`x[:, :, i * dk : (i + 1) * dk]` of source lines 185-187). -/
def headSlice (dk hIdx : ℕ) (x : T3 α) : T3 α :=
  fun b t d => x b t (hIdx * dk + d)

/-- Parameters of a `MultiHeadAttention` layer after `build` (source lines
60-165).  `dk = dv = dmodel // n_heads` are derived below as in source
lines 79-80 (the constructor asserts `dmodel % n_heads == 0`). -/
structure MultiHeadAttention (α : Type) where
  n_heads : ℕ
  dmodel : ℕ
  mask_future : Bool
  use_bias : Bool
  activation : α → α
  linear_q : ℕ → ℕ → α
  linear_k : ℕ → ℕ → α
  linear_v : ℕ → ℕ → α
  linear_o : ℕ → ℕ → α
  bias_q : ℕ → α
  bias_k : ℕ → α
  bias_v : ℕ → α
  bias_o : ℕ → α

/-- The two inputs of `MultiHeadAttention.call` and their shapes:
`query : (B, Tq, qdim)` and `key : (B, Tk, kdim)` (the third input of the
source, values, is the `key` tensor again, source line 183). -/
structure MHAInput (α : Type) where
  B : ℕ
  Tq : ℕ
  Tk : ℕ
  qdim : ℕ
  kdim : ℕ
  query : T3 α
  key : T3 α

/-- Per-head key (and query) width, source line 79. -/
def MultiHeadAttention.dk (m : MultiHeadAttention α) : ℕ := m.dmodel / m.n_heads

/-- Per-head value width, source line 80. -/
def MultiHeadAttention.dv (m : MultiHeadAttention α) : ℕ := m.dmodel / m.n_heads

/-- Projected queries (source line 180 applied to `linear_q`). -/
def MultiHeadAttention.queries (m : MultiHeadAttention α) (inp : MHAInput α) : T3 α :=
  denseProj m.activation m.use_bias m.linear_q m.bias_q inp.qdim inp.query

/-- Projected keys (source line 180 applied to `linear_k`). -/
def MultiHeadAttention.keys (m : MultiHeadAttention α) (inp : MHAInput α) : T3 α :=
  denseProj m.activation m.use_bias m.linear_k m.bias_k inp.kdim inp.key

/-- Projected values (source line 180 applied to `linear_v`, fed with the
`key` input). -/
def MultiHeadAttention.values (m : MultiHeadAttention α) (inp : MHAInput α) : T3 α :=
  denseProj m.activation m.use_bias m.linear_v m.bias_v inp.kdim inp.key

/-- `queries_` of source line 185. -/
def MultiHeadAttention.queriesHeads (m : MultiHeadAttention α) (inp : MHAInput α) : T3 α :=
  headConcat0 inp.B m.dk (m.queries inp)

/-- `keys_` of source line 186. -/
def MultiHeadAttention.keysHeads (m : MultiHeadAttention α) (inp : MHAInput α) : T3 α :=
  headConcat0 inp.B m.dk (m.keys inp)

/-- `values_` of source line 187. -/
def MultiHeadAttention.valuesHeads (m : MultiHeadAttention α) (inp : MHAInput α) : T3 α :=
  headConcat0 inp.B m.dv (m.values inp)

/-- `matmul` of source line 192: batched product of the stacked queries
with the transposed stacked keys. -/
def MultiHeadAttention.matmulQK (m : MultiHeadAttention α) (inp : MHAInput α) : T3 α :=
  fun n i j => ∑ d in Finset.range m.dk,
    m.queriesHeads inp n i d * m.keysHeads inp n j d

/-- `attended_heads` of source line 197: the matmul divided by the scale
`K.sqrt(K.cast(self.dk))` of line 195; the backend square root is a
parameter. -/
def MultiHeadAttention.scaledScores (m : MultiHeadAttention α) (inp : MHAInput α)
    (sqrt : α → α) : T3 α :=
  fun n i j => m.matmulQK inp n i j / sqrt ((m.dk : α))

/-- `key_masks` before tiling (source line 200): the sign of the summed
absolute key features of each key position. -/
def MHAInput.keyMask (inp : MHAInput α) : ℕ → ℕ → α :=
  fun b j => Ksign (∑ d in Finset.range inp.kdim, |inp.key b j d|)

/-- `query_masks` before tiling (source line 220). -/
def MHAInput.queryMask (inp : MHAInput α) : ℕ → ℕ → α :=
  fun b i => Ksign (∑ d in Finset.range inp.qdim, |inp.query b i d|)

/-- Key masking of source lines 199-204: scores of key positions whose
tiled mask entry is 0 are replaced by the padding constant. -/
def MultiHeadAttention.keyMaskedScores (m : MultiHeadAttention α) (inp : MHAInput α)
    (sqrt : α → α) : T3 α :=
  fun n i j =>
    if inp.keyMask (n % inp.B) j = 0 then paddingValue
    else m.scaledScores inp sqrt n i j

/-- Scores right before the softmax (source lines 206-211): when
`mask_future` holds, entries outside the lower triangle are additionally
replaced by the padding constant. -/
def MultiHeadAttention.maskedScores (m : MultiHeadAttention α) (inp : MHAInput α)
    (sqrt : α → α) : T3 α :=
  fun n i j =>
    if m.mask_future then
      (if trilOnes i j = (0 : α) then paddingValue
       else m.keyMaskedScores inp sqrt n i j)
    else m.keyMaskedScores inp sqrt n i j

/-- `alphas` of source line 214. -/
def MultiHeadAttention.alphas (m : MultiHeadAttention α) (inp : MHAInput α)
    (sqrt exp : α → α) : T3 α :=
  softmax3d exp inp.Tk (m.maskedScores inp sqrt)

/-- Query masking of source lines 219-223: each attention row is scaled by
the query mask of its query position. -/
def MultiHeadAttention.maskedAlphas (m : MultiHeadAttention α) (inp : MHAInput α)
    (sqrt exp : α → α) : T3 α :=
  fun n i j => m.alphas inp sqrt exp n i j * inp.queryMask (n % inp.B) i

/-- `attended_heads` after source line 226: batched product of the masked
attention weights with the stacked values. -/
def MultiHeadAttention.attendedHeads (m : MultiHeadAttention α) (inp : MHAInput α)
    (sqrt exp : α → α) : T3 α :=
  fun n i d => ∑ j in Finset.range inp.Tk,
    m.maskedAlphas inp sqrt exp n i j * m.valuesHeads inp n j d

/-- Shape restoration of source lines 228-230: the `n_heads` blocks of
`B` stacked rows are concatenated back along the feature axis. -/
def MultiHeadAttention.restored (m : MultiHeadAttention α) (inp : MHAInput α)
    (sqrt exp : α → α) : T3 α :=
  fun b t d => m.attendedHeads inp sqrt exp ((d / m.dv) * inp.B + b) t (d % m.dv)

/-- The final output of `MultiHeadAttention.call` (source line 233). -/
def MultiHeadAttention.callOutput (m : MultiHeadAttention α) (inp : MHAInput α)
    (sqrt exp : α → α) : T3 α :=
  denseProj m.activation m.use_bias m.linear_o m.bias_o (m.dv * m.n_heads)
    (m.restored inp sqrt exp)

/-- Reference definition following the claim wording: the scaled
dot-product scores of head `hIdx` computed directly from that head's
slices of the projected queries and keys. -/
def MultiHeadAttention.headScores (m : MultiHeadAttention α) (inp : MHAInput α)
    (sqrt : α → α) (hIdx : ℕ) : T3 α :=
  fun b i j =>
    (∑ d in Finset.range m.dk,
        headSlice m.dk hIdx (m.queries inp) b i d *
          headSlice m.dk hIdx (m.keys inp) b j d) / sqrt ((m.dk : α))

/-- Reference definition: the key masking applied within head `hIdx`. -/
def MultiHeadAttention.headKeyMaskedScores (m : MultiHeadAttention α) (inp : MHAInput α)
    (sqrt : α → α) (hIdx : ℕ) : T3 α :=
  fun b i j =>
    if inp.keyMask b j = 0 then paddingValue
    else m.headScores inp sqrt hIdx b i j

/-- Reference definition: key and future masking within head `hIdx`. -/
def MultiHeadAttention.headMaskedScores (m : MultiHeadAttention α) (inp : MHAInput α)
    (sqrt : α → α) (hIdx : ℕ) : T3 α :=
  fun b i j =>
    if m.mask_future then
      (if trilOnes i j = (0 : α) then paddingValue
       else m.headKeyMaskedScores inp sqrt hIdx b i j)
    else m.headKeyMaskedScores inp sqrt hIdx b i j

/-- Reference definition: the softmax within head `hIdx`. -/
def MultiHeadAttention.headAlphas (m : MultiHeadAttention α) (inp : MHAInput α)
    (sqrt exp : α → α) (hIdx : ℕ) : T3 α :=
  softmax3d exp inp.Tk (m.headMaskedScores inp sqrt hIdx)

/-- Reference definition: attention of head `hIdx` computed independently
of the other heads, directly on that head's slices. -/
def MultiHeadAttention.headAttended (m : MultiHeadAttention α) (inp : MHAInput α)
    (sqrt exp : α → α) (hIdx : ℕ) : T3 α :=
  fun b i d => ∑ j in Finset.range inp.Tk,
    m.headAlphas inp sqrt exp hIdx b i j * inp.queryMask b i *
      headSlice m.dv hIdx (m.values inp) b j d

/-- Parameters of a `SoftAttention` layer after `build` (source lines
489-556): the attended input `x : (B, input_steps, input_dim)` and the
context vector `context : (B, context_dim)`. -/
structure SoftAttention (α : Type) where
  att_dim : ℕ
  input_steps : ℕ
  input_dim : ℕ
  context_dim : ℕ
  sum_weighted_output : Bool
  activation : α → α
  wa : ℕ → α
  Wa : ℕ → ℕ → α
  Ua : ℕ → ℕ → α
  ba : ℕ → α
  ca : ℕ → α

/-- `constants[1]` of `SoftAttention.get_constants` on the dropout-free
path (source line 632): `K.dot(context, Ua) + ba`. -/
def SoftAttention.pctx0 (sa : SoftAttention α) (context : ℕ → ℕ → α) : ℕ → ℕ → α :=
  fun b d => (∑ j in Finset.range sa.context_dim, context b j * sa.Ua j d) + sa.ba d

/-- `p_state_` of source line 599: `K.dot(x * B_Wa[0], Wa)`; on the
dropout-free path the constant `B_Wa` is the scalar 1 (source line 622). -/
def SoftAttention.p_state (sa : SoftAttention α) (B_Wa : α) (x : T3 α) : T3 α :=
  fun b t d => ∑ j in Finset.range sa.input_dim, x b t j * B_Wa * sa.Wa j d

/-- `pctx_` of source line 600: the activation of the broadcast sum of the
projected context and the projected input. -/
def SoftAttention.pctxAct (sa : SoftAttention α) (B_Wa : α) (x : T3 α)
    (context : ℕ → ℕ → α) : T3 α :=
  fun b t d => sa.activation (sa.pctx0 context b d + sa.p_state B_Wa x b t d)

/-- `e` of source line 601: `K.dot(pctx_, wa) + ca`. -/
def SoftAttention.e (sa : SoftAttention α) (B_Wa : α) (x : T3 α)
    (context : ℕ → ℕ → α) : ℕ → ℕ → α :=
  fun b t =>
    (∑ d in Finset.range sa.att_dim, sa.pctxAct B_Wa x context b t d * sa.wa d) + sa.ca t

/-- Modelled from the spec: `alphas` of source line 603 is the backend
softmax `K.softmax` of the energies over the `input_steps` axis,
`alpha_i = exp e_i / sum_j exp e_j`, with the backend exponential a
parameter. -/
def SoftAttention.alphas (sa : SoftAttention α) (exp : α → α) (B_Wa : α)
    (x : T3 α) (context : ℕ → ℕ → α) : ℕ → ℕ → α :=
  fun b t => exp (sa.e B_Wa x context b t) /
    ∑ u in Finset.range sa.input_steps, exp (sa.e B_Wa x context b u)

/-- `ctx_` of source line 606 before the optional sum: the input weighted
by the attention weights. -/
def SoftAttention.ctx3 (sa : SoftAttention α) (exp : α → α) (B_Wa : α)
    (x : T3 α) (context : ℕ → ℕ → α) : T3 α :=
  fun b t d => x b t d * sa.alphas exp B_Wa x context b t

/-- `SoftAttention.attention_step` (source lines 592-609): returns the
attended representation (summed over the timestep axis exactly when
`sum_weighted_output`, source lines 607-608) together with the attention
weights. -/
def SoftAttention.attention_step (sa : SoftAttention α) (exp : α → α) (B_Wa : α)
    (x : T3 α) (context : ℕ → ℕ → α) : ((ℕ → ℕ → α) ⊕ T3 α) × (ℕ → ℕ → α) :=
  (if sa.sum_weighted_output then
      Sum.inl (fun b d => ∑ t in Finset.range sa.input_steps, sa.ctx3 exp B_Wa x context b t d)
    else Sum.inr (sa.ctx3 exp B_Wa x context),
   sa.alphas exp B_Wa x context)

/-- Modelled from the spec: the backend `K.repeat` turns a (samples, dim)
tensor into (samples, n, dim) by repeating each row n times. -/
def Krepeat {β : Type} (x : List (List β)) (n : ℕ) : List (List (List β)) :=
  x.map (fun row => List.replicate n row)

/-- Modelled from the spec: the backend `K.flatten` in row-major order. -/
def Kflatten {β : Type} (x : List (List (List β))) : List β :=
  x.flatten.flatten

/-- `ConvAtt.compute_mask` (source lines 1489-1498), transcribed with the
rebinding of `out_mask` at source line 1495 that follows the
`nb_glimpses` branch. -/
def ConvAtt.compute_mask {β : Type} (nb_glimpses nb_embedding : ℕ)
    (mask1 : List (List β)) : List β :=
  let out_mask := if 0 < nb_glimpses then Krepeat mask1 nb_glimpses
    else Krepeat mask1 nb_embedding
  let out_mask := Krepeat mask1 nb_embedding
  Kflatten out_mask

/-- Constructor parameter names and `get_config` keys of one layer of the
module, transcribed from the source. -/
structure LayerConfig where
  layerName : String
  ctorParams : List String
  configKeys : List String
  deriving DecidableEq

/-- `MultiHeadAttention`: constructor of source lines 60-73, config of
source lines 252-264. -/
def multiHeadAttentionLayerConfig : LayerConfig :=
  LayerConfig.mk "MultiHeadAttention"
    ["n_heads", "dmodel", "mask_future", "dropout", "activation", "use_bias",
     "kernel_initializer", "kernel_regularizer", "activity_regularizer",
     "kernel_constraint", "bias_initializer", "bias_regularizer",
     "bias_constraint"]
    ["n_heads", "dmodel", "activation", "use_bias", "kernel_initializer",
     "kernel_regularizer", "kernel_constraint", "activity_regularizer",
     "dropout", "mask_future"]

/-- `Attention`: constructor of source lines 298-307, config of source
lines 423-432. -/
def attentionLayerConfig : LayerConfig :=
  LayerConfig.mk "Attention"
    ["nb_attention", "init", "inner_init", "forget_bias_init", "activation",
     "inner_activation", "dropout_Wa", "Wa_regularizer", "ba_regularizer"]
    ["nb_attention", "kernel_initializer", "recurrent_initializer",
     "forget_bias_initializer", "activation", "recurrent_activation",
     "Wa_regularizer", "ba_regularizer", "dropout_Wa"]

/-- `SoftAttention`: constructor of source lines 489-501, config of source
lines 649-661. -/
def softAttentionLayerConfig : LayerConfig :=
  LayerConfig.mk "SoftAttention"
    ["att_dim", "sum_weighted_output", "init", "activation", "dropout_Wa",
     "dropout_Ua", "wa_regularizer", "Wa_regularizer", "Ua_regularizer",
     "ba_regularizer", "ca_regularizer"]
    ["att_units", "kernel_initializer", "activation", "sum_weighted_output",
     "wa_regularizer", "Wa_regularizer", "Ua_regularizer", "ba_regularizer",
     "ca_regularizer", "dropout_Wa", "dropout_Ua"]

/-- `SoftMultistepsAttention`: constructor of source lines 719-728, config
of source lines 897-910. -/
def softMultistepsAttentionLayerConfig : LayerConfig :=
  LayerConfig.mk "SoftMultistepsAttention"
    ["att_dim", "sum_weighted_output", "init", "activation",
     "return_sequences", "dropout_Wa", "dropout_Ua", "wa_regularizer",
     "Wa_regularizer", "Ua_regularizer", "ba_regularizer", "ca_regularizer"]
    ["att_units", "kernel_initializer", "activation", "sum_weighted_output",
     "return_sequences", "wa_regularizer", "Wa_regularizer", "Ua_regularizer",
     "ba_regularizer", "ca_regularizer", "dropout_Wa", "dropout_Ua"]

/-- `AttentionComplex`: constructor of source lines 950-963, config of
source lines 1127-1141. -/
def attentionComplexLayerConfig : LayerConfig :=
  LayerConfig.mk "AttentionComplex"
    ["nb_attention", "init", "inner_init", "forget_bias_init", "activation",
     "inner_activation", "dropout_w", "dropout_W", "dropout_Wa",
     "w_regularizer", "W_regularizer", "b_regularizer", "Wa_regularizer",
     "ba_regularizer"]
    ["nb_attention", "kernel_initializer", "recurrent_initializer",
     "forget_bias_initializer", "activation", "recurrent_activation",
     "w_regularizer", "W_regularizer", "b_regularizer", "Wa_regularizer",
     "ba_regularizer", "dropout_w", "dropout_W", "dropout_Wa"]

/-- `ConvAtt`: constructor of source lines 1227-1234, config of source
lines 1500-1520. -/
def convAttLayerConfig : LayerConfig :=
  LayerConfig.mk "ConvAtt"
    ["nb_embedding", "nb_glimpses", "concat_timesteps", "init", "activation",
     "weights", "return_states", "border_mode", "dim_ordering",
     "W_regularizer", "U_regularizer", "V_regularizer", "b_regularizer",
     "activity_regularizer", "W_constraint", "U_constraint", "V_constraint",
     "b_constraint", "W_learning_rate_multiplier",
     "b_learning_rate_multiplier", "bias"]
    ["nb_embedding", "nb_glimpses", "concat_timesteps", "return_state",
     "kernel_initializer", "activation", "border_mode", "dim_ordering",
     "W_regularizer", "U_regularizer", "V_regularizer", "b_regularizer",
     "activity_regularizer", "W_constraint", "U_constraint", "V_constraint",
     "b_constraint", "W_learning_rate_multiplier",
     "b_learning_rate_multiplier", "bias"]

/-- `ConvCoAtt`: constructor of source lines 1612-1619, config of source
lines 1878-1896. -/
def convCoAttLayerConfig : LayerConfig :=
  LayerConfig.mk "ConvCoAtt"
    ["nb_embedding", "nb_glimpses", "concat_timesteps", "init", "activation",
     "weights", "return_states", "border_mode", "dim_ordering",
     "W_regularizer", "U_regularizer", "b_regularizer",
     "activity_regularizer", "W_constraint", "U_constraint", "b_constraint",
     "W_learning_rate_multiplier", "b_learning_rate_multiplier", "bias"]
    ["nb_embedding", "nb_glimpses", "concat_timesteps", "return_state",
     "kernel_initializer", "activation", "border_mode", "dim_ordering",
     "W_regularizer", "U_regularizer", "b_regularizer",
     "activity_regularizer", "W_constraint", "U_constraint", "b_constraint",
     "W_learning_rate_multiplier", "b_learning_rate_multiplier", "bias"]

/-- Every attention layer of the module. -/
def allLayerConfigs : List LayerConfig :=
  [multiHeadAttentionLayerConfig, attentionLayerConfig,
   softAttentionLayerConfig, softMultistepsAttentionLayerConfig,
   attentionComplexLayerConfig, convAttLayerConfig, convCoAttLayerConfig]

/-- A layer records its configuration under the constructor's own
parameter names exactly when every `get_config` key is a constructor
parameter name. -/
def configUsesCtorNames (L : LayerConfig) : Bool :=
  L.configKeys.all (fun k => L.ctorParams.contains k)

/-- Classification of an error-raising site: an assertion or exception
about the shape of the layer inputs, a validation of constructor
arguments or of configuration derived from them, or recovery logic
(a kind that occurs nowhere in the module: it has no try/except). -/
inductive ErrKind : Type
  | inputShape : ErrKind
  | ctorArg : ErrKind
  | recovery : ErrKind
  deriving DecidableEq, BEq

/-- One `assert` or `raise` site of the module. -/
structure ErrorSite where
  layer : String
  method : String
  line : ℕ
  kind : ErrKind
  deriving DecidableEq, BEq

/-- Every `assert` and `raise` site of `keras/layers/attention.py`,
transcribed with its source line.  Input-shape sites assert the rank or
presence of the input shapes; ctor-argument sites validate `dmodel`
divisibility by `n_heads` (line 76), `border_mode` (lines 1238, 1623) and
`dim_ordering` (all remaining ValueError sites). -/
def errorSites : List ErrorSite :=
  [ErrorSite.mk "MultiHeadAttention" "__init__" 76 ErrKind.ctorArg,
   ErrorSite.mk "MultiHeadAttention" "build" 104 ErrKind.inputShape,
   ErrorSite.mk "MultiHeadAttention" "compute_output_shape" 246 ErrKind.inputShape,
   ErrorSite.mk "MultiHeadAttention" "compute_output_shape" 247 ErrKind.inputShape,
   ErrorSite.mk "Attention" "call" 360 ErrKind.inputShape,
   ErrorSite.mk "Attention" "call" 364 ErrKind.inputShape,
   ErrorSite.mk "SoftAttention" "build" 522 ErrKind.inputShape,
   ErrorSite.mk "SoftAttention" "call" 569 ErrKind.inputShape,
   ErrorSite.mk "SoftAttention" "call" 573 ErrKind.inputShape,
   ErrorSite.mk "SoftMultistepsAttention" "build" 751 ErrKind.inputShape,
   ErrorSite.mk "SoftMultistepsAttention" "call" 798 ErrKind.inputShape,
   ErrorSite.mk "SoftMultistepsAttention" "call" 802 ErrKind.inputShape,
   ErrorSite.mk "AttentionComplex" "call" 1032 ErrKind.inputShape,
   ErrorSite.mk "AttentionComplex" "call" 1036 ErrKind.inputShape,
   ErrorSite.mk "ConvAtt" "__init__" 1238 ErrKind.ctorArg,
   ErrorSite.mk "ConvAtt" "__init__" 1251 ErrKind.ctorArg,
   ErrorSite.mk "ConvAtt" "build" 1298 ErrKind.ctorArg,
   ErrorSite.mk "ConvAtt" "get_output_shape_for" 1342 ErrKind.ctorArg,
   ErrorSite.mk "ConvAtt" "call" 1404 ErrKind.ctorArg,
   ErrorSite.mk "ConvCoAtt" "__init__" 1623 ErrKind.ctorArg,
   ErrorSite.mk "ConvCoAtt" "__init__" 1639 ErrKind.ctorArg,
   ErrorSite.mk "ConvCoAtt" "build" 1686 ErrKind.ctorArg,
   ErrorSite.mk "ConvCoAtt" "get_output_shape_for" 1725 ErrKind.ctorArg,
   ErrorSite.mk "ConvCoAtt" "step" 1823 ErrKind.ctorArg,
   ErrorSite.mk "ConvCoAtt" "step" 1839 ErrKind.ctorArg]

/-- Whether a site lies in a constructor, `build` or `call` method. -/
def inCtorBuildCall (s : ErrorSite) : Bool :=
  s.method == "__init__" || s.method == "build" || s.method == "call"

/-- Concrete `MultiHeadAttention` layer over the rationals used as a
witness input: two heads of width one, future masking on. -/
def mhaEx : MultiHeadAttention ℚ where
  n_heads := 2
  dmodel := 2
  mask_future := true
  use_bias := false
  activation := fun x => x
  linear_q := fun _ _ => 1
  linear_k := fun _ _ => 1
  linear_v := fun _ _ => 1
  linear_o := fun _ _ => 1
  bias_q := fun _ => 0
  bias_k := fun _ => 0
  bias_v := fun _ => 0
  bias_o := fun _ => 0

/-- Concrete input batch: one sample, two timesteps, one feature; the
second query and key positions are all-zero padding. -/
def inpEx : MHAInput ℚ where
  B := 1
  Tq := 2
  Tk := 2
  qdim := 1
  kdim := 1
  query := fun _ t _ => if t = 0 then 1 else 0
  key := fun _ t _ => if t = 0 then 1 else 0

/-- Identity standing in for the backend square root in witnesses. -/
def idEx : ℚ → ℚ := fun x => x

/-- Constant-one function standing in for the backend exponential in
witnesses (it is positive everywhere, as an exponential is). -/
def oneEx : ℚ → ℚ := fun _ => 1

/-- Concrete `SoftAttention` layer over the rationals used as a witness
input. -/
def saEx : SoftAttention ℚ where
  att_dim := 1
  input_steps := 2
  input_dim := 1
  context_dim := 1
  sum_weighted_output := true
  activation := fun x => x
  wa := fun _ => 1
  Wa := fun _ _ => 1
  Ua := fun _ _ => 1
  ba := fun _ => 0
  ca := fun _ => 0

/-- Concrete attended input for `SoftAttention` witnesses. -/
def xEx : T3 ℚ := fun _ _ _ => 1

/-- Concrete context for `SoftAttention` witnesses. -/
def ctxEx : ℕ → ℕ → ℚ := fun _ _ => 1

/-- Row `hIdx * B + b` of the axis-0 stacking belongs to head `hIdx`. -/
theorem stackRow_div {B hIdx b : ℕ} (hb : b < B) : (hIdx * B + b) / B = hIdx := by
  have hB : 0 < B := Nat.lt_of_le_of_lt (Nat.zero_le b) hb
  rw [Nat.add_comm, Nat.add_mul_div_right _ _ hB, Nat.div_eq_of_lt hb, Nat.zero_add]

/-- Row `hIdx * B + b` of the axis-0 stacking belongs to batch row `b`. -/
theorem stackRow_mod {B hIdx b : ℕ} (hb : b < B) : (hIdx * B + b) % B = b := by
  rw [Nat.add_comm, Nat.add_mul_mod_self_right, Nat.mod_eq_of_lt hb]

/-- A key position whose feature vector is all zero has key mask 0. -/
theorem keyMask_eq_zero (inp : MHAInput α) (b j : ℕ)
    (h : ∀ d, d < inp.kdim → inp.key b j d = 0) : inp.keyMask b j = 0 := by
  have hs : ∑ d in Finset.range inp.kdim, |inp.key b j d| = 0 :=
    Finset.sum_eq_zero (fun d hd => by
      rw [h d (Finset.mem_range.mp hd), abs_zero])
  simp [MHAInput.keyMask, hs, Ksign]

/-- A query position whose feature vector is all zero has query mask 0. -/
theorem queryMask_eq_zero (inp : MHAInput α) (b i : ℕ)
    (h : ∀ d, d < inp.qdim → inp.query b i d = 0) : inp.queryMask b i = 0 := by
  have hs : ∑ d in Finset.range inp.qdim, |inp.query b i d| = 0 :=
    Finset.sum_eq_zero (fun d hd => by
      rw [h d (Finset.mem_range.mp hd), abs_zero])
  simp [MHAInput.queryMask, hs, Ksign]

/-- C1: in `MultiHeadAttention.call`, for every pair of query/key inputs,
the pre-softmax attention score at head `hIdx`, batch row `b` and
positions `(i, j)` equals the dot product of the projected query slice
with the projected key slice of that head, divided by the square root of
`dk`, where `dk = dmodel / n_heads`. -/
theorem mha_scaled_scores_spec (m : MultiHeadAttention α) (inp : MHAInput α)
    (sqrt : α → α) (hIdx b i j : ℕ) (hb : b < inp.B) :
    m.scaledScores inp sqrt (hIdx * inp.B + b) i j
      = (∑ d in Finset.range (m.dmodel / m.n_heads),
          m.queries inp b i (hIdx * (m.dmodel / m.n_heads) + d)
            * m.keys inp b j (hIdx * (m.dmodel / m.n_heads) + d))
          / sqrt (((m.dmodel / m.n_heads : ℕ) : α)) := by
  simp only [MultiHeadAttention.scaledScores, MultiHeadAttention.matmulQK,
    MultiHeadAttention.queriesHeads, MultiHeadAttention.keysHeads, headConcat0,
    MultiHeadAttention.dk, stackRow_div hb, stackRow_mod hb]

/-- Witness for C1 at the concrete layer and input, head 1, batch row 0. -/
theorem mha_scaled_scores_spec_witness :
    (0 : ℕ) < inpEx.B ∧
      mhaEx.scaledScores inpEx idEx (1 * inpEx.B + 0) 0 0
        = (∑ d in Finset.range (mhaEx.dmodel / mhaEx.n_heads),
            mhaEx.queries inpEx 0 0 (1 * (mhaEx.dmodel / mhaEx.n_heads) + d)
              * mhaEx.keys inpEx 0 0 (1 * (mhaEx.dmodel / mhaEx.n_heads) + d))
            / idEx (((mhaEx.dmodel / mhaEx.n_heads : ℕ) : ℚ)) :=
  ⟨by decide, mha_scaled_scores_spec mhaEx inpEx idEx 1 0 0 0 (by decide)⟩

/-- C2: in `MultiHeadAttention.call`, a key position whose key vector is
entirely zero has its score replaced by `-2 ** 32 + 1` in every head and
at every query position in the tensor fed to the softmax. -/
theorem mha_key_padding_masked (m : MultiHeadAttention α) (inp : MHAInput α)
    (sqrt : α → α) (hIdx b i j : ℕ) (hb : b < inp.B)
    (hkey : ∀ d, d < inp.kdim → inp.key b j d = 0) :
    m.maskedScores inp sqrt (hIdx * inp.B + b) i j = paddingValue := by
  have hkm := keyMask_eq_zero inp b j hkey
  simp [MultiHeadAttention.maskedScores, MultiHeadAttention.keyMaskedScores,
    stackRow_mod hb, hkm]

/-- Witness for C2 at the concrete layer and input: key position 1 is
all-zero padding, so row 1 of the scores is suppressed in head 0. -/
theorem mha_key_padding_masked_witness :
    (0 : ℕ) < inpEx.B ∧ (∀ d, d < inpEx.kdim → inpEx.key 0 1 d = 0) ∧
      mhaEx.maskedScores inpEx idEx (0 * inpEx.B + 0) 0 1 = paddingValue :=
  ⟨by decide, fun _ _ => rfl,
    mha_key_padding_masked mhaEx inpEx idEx 0 0 0 1 (by decide) (fun _ _ => rfl)⟩

/-- C3: when `mask_future` is set, every score at a key position `j`
strictly in the future of the query position `i` is replaced by
`-2 ** 32 + 1` in every stacked head row before the softmax. -/
theorem mha_future_masked (m : MultiHeadAttention α) (inp : MHAInput α)
    (sqrt : α → α) (n i j : ℕ) (hmf : m.mask_future = true) (hij : i < j) :
    m.maskedScores inp sqrt n i j = paddingValue := by
  have hle : ¬ j ≤ i := not_le.mpr hij
  simp [MultiHeadAttention.maskedScores, hmf, trilOnes, hle]

/-- Witness for C3 at the concrete layer (built with future masking) and
input, at positions i = 0, j = 1. -/
theorem mha_future_masked_witness :
    mhaEx.mask_future = true ∧ (0 : ℕ) < 1 ∧
      mhaEx.maskedScores inpEx idEx 0 0 1 = paddingValue :=
  ⟨rfl, by decide, mha_future_masked mhaEx inpEx idEx 0 0 1 rfl (by decide)⟩

/-- C4: the attention weights returned by `SoftAttention.attention_step`
are a softmax over the input positions: with a positive backend
exponential and a nonempty timestep axis, every weight is non-negative
and, for each batch element, the weights sum to 1. -/
theorem soft_attention_alphas_softmax (sa : SoftAttention α) (exp : α → α)
    (B_Wa : α) (x : T3 α) (context : ℕ → ℕ → α) (b : ℕ)
    (hexp : ∀ y, 0 < exp y) (hsteps : 0 < sa.input_steps) :
    (∀ t, 0 ≤ (sa.attention_step exp B_Wa x context).2 b t) ∧
      (∑ t in Finset.range sa.input_steps,
        (sa.attention_step exp B_Wa x context).2 b t) = 1 := by
  have hpos : 0 < ∑ u in Finset.range sa.input_steps, exp (sa.e B_Wa x context b u) :=
    Finset.sum_pos (fun u _ => hexp _) (Finset.nonempty_range_iff.mpr hsteps.ne')
  constructor
  · intro t
    exact div_nonneg (le_of_lt (hexp _)) (le_of_lt hpos)
  · simp only [SoftAttention.attention_step, SoftAttention.alphas]
    rw [← Finset.sum_div]
    exact div_self (ne_of_gt hpos)

/-- Witness for C4 at the concrete layer and input, with the constant-one
positive function standing in for the backend exponential. -/
theorem soft_attention_alphas_softmax_witness :
    (∀ y : ℚ, 0 < oneEx y) ∧ (0 : ℕ) < saEx.input_steps ∧
      ((∀ t, 0 ≤ (saEx.attention_step oneEx 1 xEx ctxEx).2 0 t) ∧
        (∑ t in Finset.range saEx.input_steps,
          (saEx.attention_step oneEx 1 xEx ctxEx).2 0 t) = 1) :=
  ⟨fun _ => one_pos, by decide,
    soft_attention_alphas_softmax saEx oneEx 1 xEx ctxEx 0 (fun _ => one_pos) (by decide)⟩

/-- C5: with `sum_weighted_output` set, the attended representation
returned by `SoftAttention.attention_step` is the weighted sum over input
positions of the attention weight times the input vector at that
position. -/
theorem soft_attention_weighted_sum (sa : SoftAttention α) (exp : α → α)
    (B_Wa : α) (x : T3 α) (context : ℕ → ℕ → α)
    (hsum : sa.sum_weighted_output = true) :
    (sa.attention_step exp B_Wa x context).1
      = Sum.inl (fun b d => ∑ i in Finset.range sa.input_steps,
          sa.alphas exp B_Wa x context b i * x b i d) := by
  simp only [SoftAttention.attention_step, SoftAttention.ctx3, hsum, if_true]
  refine congrArg Sum.inl ?_
  funext b d
  exact Finset.sum_congr rfl (fun t _ => mul_comm _ _)

/-- Witness for C5 at the concrete layer (built with
`sum_weighted_output`) and input. -/
theorem soft_attention_weighted_sum_witness :
    saEx.sum_weighted_output = true ∧
      (saEx.attention_step oneEx 1 xEx ctxEx).1
        = Sum.inl (fun b d => ∑ i in Finset.range saEx.input_steps,
            saEx.alphas oneEx 1 xEx ctxEx b i * xEx b i d) :=
  ⟨rfl, soft_attention_weighted_sum saEx oneEx 1 xEx ctxEx rfl⟩

/-- C6: `MultiHeadAttention.call` splits the projected queries, keys and
values into `n_heads` slices of `dk` (resp. `dv`) features, computes
scaled dot-product attention per head independently, and concatenates the
per-head results back along the feature axis: feature `hIdx * dv + d0` of
the restored (batch, timesteps, dmodel) tensor fed to the output
projection equals feature `d0` of head `hIdx` computed directly on that
head's slices. -/
theorem mha_multihead_split_concat (m : MultiHeadAttention α) (inp : MHAInput α)
    (sqrt exp : α → α) (hIdx b t d0 : ℕ) (hb : b < inp.B) (hd0 : d0 < m.dv) :
    m.restored inp sqrt exp b t (hIdx * m.dv + d0)
      = m.headAttended inp sqrt exp hIdx b t d0 := by
  simp only [MultiHeadAttention.restored, stackRow_div hd0, stackRow_mod hd0,
    MultiHeadAttention.attendedHeads, MultiHeadAttention.maskedAlphas,
    MultiHeadAttention.alphas, MultiHeadAttention.maskedScores,
    MultiHeadAttention.keyMaskedScores, MultiHeadAttention.scaledScores,
    MultiHeadAttention.matmulQK, MultiHeadAttention.queriesHeads,
    MultiHeadAttention.keysHeads, MultiHeadAttention.valuesHeads, headConcat0,
    softmax3d, stackRow_div hb, stackRow_mod hb,
    MultiHeadAttention.headAttended, MultiHeadAttention.headAlphas,
    MultiHeadAttention.headMaskedScores, MultiHeadAttention.headKeyMaskedScores,
    MultiHeadAttention.headScores, headSlice, mul_assoc]

/-- Witness for C6 at the concrete layer and input, head 1, batch row 0,
timestep 0, slice feature 0. -/
theorem mha_multihead_split_concat_witness :
    (0 : ℕ) < inpEx.B ∧ (0 : ℕ) < mhaEx.dv ∧
      mhaEx.restored inpEx idEx oneEx 0 0 (1 * mhaEx.dv + 0)
        = mhaEx.headAttended inpEx idEx oneEx 1 0 0 0 :=
  ⟨by decide, by decide,
    mha_multihead_split_concat mhaEx inpEx idEx oneEx 1 0 0 0 (by decide) (by decide)⟩

/-- C9: a query position whose query vector is entirely zero has all its
post-softmax attention weights multiplied by zero in every head, so the
per-head attended vector at that position is the zero vector before the
final output projection. -/
theorem mha_query_padding_zero (m : MultiHeadAttention α) (inp : MHAInput α)
    (sqrt exp : α → α) (hIdx b i : ℕ) (hb : b < inp.B)
    (hq : ∀ d, d < inp.qdim → inp.query b i d = 0) :
    (∀ j, m.maskedAlphas inp sqrt exp (hIdx * inp.B + b) i j = 0) ∧
      (∀ d, m.attendedHeads inp sqrt exp (hIdx * inp.B + b) i d = 0) := by
  have hqm := queryMask_eq_zero inp b i hq
  constructor
  · intro j
    simp [MultiHeadAttention.maskedAlphas, stackRow_mod hb, hqm]
  · intro d
    simp [MultiHeadAttention.attendedHeads, MultiHeadAttention.maskedAlphas,
      stackRow_mod hb, hqm]

/-- Witness for C9 at the concrete layer and input: query position 1 is
all-zero padding, so its masked weights and attended vector vanish in
head 0. -/
theorem mha_query_padding_zero_witness :
    (0 : ℕ) < inpEx.B ∧ (∀ d, d < inpEx.qdim → inpEx.query 0 1 d = 0) ∧
      ((∀ j, mhaEx.maskedAlphas inpEx idEx oneEx (0 * inpEx.B + 0) 1 j = 0) ∧
        (∀ d, mhaEx.attendedHeads inpEx idEx oneEx (0 * inpEx.B + 0) 1 d = 0)) :=
  ⟨by decide, fun _ _ => rfl,
    mha_query_padding_zero mhaEx inpEx idEx oneEx 0 0 1 (by decide) (fun _ _ => rfl)⟩

/-- C10: `ConvAtt.compute_mask` returns the flattened repeat of the
second input mask by `nb_embedding` for every value of `nb_glimpses`: the
branch on `nb_glimpses` is unconditionally overwritten. -/
theorem convatt_compute_mask_ignores_glimpses {β : Type} (g1 g2 e : ℕ)
    (mask1 : List (List β)) :
    ConvAtt.compute_mask g1 e mask1 = Kflatten (Krepeat mask1 e) ∧
      ConvAtt.compute_mask g1 e mask1 = ConvAtt.compute_mask g2 e mask1 :=
  ⟨rfl, rfl⟩

/-- C7 counterexample: `SoftAttention.get_config` records `att_dim` under
the key `att_units` (and `init` under `kernel_initializer`), which are not
constructor parameter names, so not every attention layer of the module
records its configuration under the constructor's own parameter names. -/
theorem get_config_ctor_names_counterexample :
    configUsesCtorNames softAttentionLayerConfig = false ∧
      softAttentionLayerConfig.ctorParams.contains "att_units" = false ∧
      allLayerConfigs.all configUsesCtorNames = false := by decide

/-- C7 amended: `MultiHeadAttention` is the only attention layer of the
module whose `get_config` keys are all names of its constructor
parameters; each of the other six layers records at least one entry under
a different name, so the config-to-constructor round trip fails for
them. -/
theorem get_config_ctor_names_amended :
    (allLayerConfigs.filter configUsesCtorNames).map LayerConfig.layerName
      = ["MultiHeadAttention"] := by decide

/-- C8 counterexample: `ConvAtt.__init__` raises a ValueError validating
the `border_mode` constructor argument (source line 1238), an error in a
constructor that is not an assertion about the shape of the inputs. -/
theorem error_sites_counterexample :
    errorSites.contains (ErrorSite.mk "ConvAtt" "__init__" 1238 ErrKind.ctorArg) = true ∧
      errorSites.all
        (fun s => !(inCtorBuildCall s) || s.kind == ErrKind.inputShape) = false := by
  decide

/-- C8 amended: every assert or raise site of the module is either an
input-shape assertion or a constructor-argument/configuration validation
(the `dmodel` divisibility assert of `MultiHeadAttention.__init__` and the
`border_mode`/`dim_ordering` ValueErrors of `ConvAtt` and `ConvCoAtt`);
no site is failure-recovery logic. -/
theorem error_sites_amended :
    errorSites.all
        (fun s => s.kind == ErrKind.inputShape || s.kind == ErrKind.ctorArg) = true ∧
      (errorSites.filter (fun s => s.kind == ErrKind.ctorArg)).all
        (fun s => s.layer == "MultiHeadAttention" || s.layer == "ConvAtt"
          || s.layer == "ConvCoAtt") = true := by
  decide

end AttentionSpec
